import Mathlib

/-!
Shallow embedding of `keras/trainers/data_adapters/generator_data_adapter.py`.

A Python generator of batches is modelled as a `PyGen`: the list of elements it
has yet to yield together with a counter of how many `next` calls have returned
an element (so that side effects on the caller-supplied generator are
observable).  Batches are nested tuple structures (`Tree`) whose leaves are
array-like values (`Field`).  Exceptions are modelled with `Except KerasError`;
the mutation of `self._output_signature` is modelled by state passing.
-/

namespace Keras

/-- Python exceptions that the adapter can surface: `ValueError` with a message,
or the `StopIteration` raised by `next()` on an exhausted generator. -/
inductive KerasError where
  | valueError (msg : String)
  | stopIteration
deriving DecidableEq, Repr

/-- An array-like leaf value of a batch: a dense numpy array, a
`tf.RaggedTensor`, a `tf.SparseTensor` (shape, dtype, 2-column indices, values),
or a scipy sparse matrix (2-D shape, dtype, COO row/col/data). -/
inductive Field where
  | ndarray (shape : List Nat) (dtype : String) (data : List Int)
  | raggedTensor (shape : List Nat) (dtype : String) (data : List Int)
  | sparseTensor (shape : List Nat) (dtype : String)
      (indices : List (Nat × Nat)) (values : List Int)
  | scipySparseMatrix (nrows ncols : Nat) (dtype : String)
      (row col : List Nat) (data : List Int)
deriving DecidableEq, Repr

/-- `x.shape` of a leaf value. -/
def Field.shape : Field → List Nat
  | .ndarray s _ _ => s
  | .raggedTensor s _ _ => s
  | .sparseTensor s _ _ _ => s
  | .scipySparseMatrix n m _ _ _ _ => [n, m]

/-- `x.dtype` of a leaf value. -/
def Field.dtype : Field → String
  | .ndarray _ d _ => d
  | .raggedTensor _ d _ => d
  | .sparseTensor _ d _ _ => d
  | .scipySparseMatrix _ _ d _ _ _ => d

/-- `x.__class__.__module__` of a leaf value. -/
def Field.moduleName : Field → String
  | .ndarray _ _ _ => "numpy"
  | .raggedTensor _ _ _ => "tensorflow.python.ops.ragged.ragged_tensor"
  | .sparseTensor _ _ _ _ => "tensorflow.python.framework.sparse_tensor"
  | .scipySparseMatrix _ _ _ _ _ _ => "scipy.sparse._coo"

/-- `hasattr(x, "tocoo")`: only scipy sparse matrices expose `tocoo`. -/
def Field.hasTocoo : Field → Bool
  | .scipySparseMatrix _ _ _ _ _ _ => true
  | _ => false

/-- `isinstance(x, tf.RaggedTensor)`. -/
def Field.isRaggedTensor : Field → Bool
  | .raggedTensor _ _ _ => true
  | _ => false

/-- `isinstance(x, tf.SparseTensor)`. -/
def Field.isSparseTensor : Field → Bool
  | .sparseTensor _ _ _ _ => true
  | _ => false

/-- The COO form returned by `x.tocoo()`: row indices, column indices, data
values, and the overall shape. -/
structure CooMatrix where
  row : List Nat
  col : List Nat
  data : List Int
  shape : List Nat
deriving DecidableEq, Repr

/-- `x.tocoo()`: defined exactly on scipy sparse matrices. -/
def Field.tocoo : Field → Option CooMatrix
  | .scipySparseMatrix n m _ r c d => some ⟨r, c, d, [n, m]⟩
  | _ => none

/-- Python's `str.startswith`, written on the underlying character lists so
that it evaluates by kernel reduction. -/
def strStartsWith (s p : String) : Bool :=
  List.isPrefixOf p.data s.data

/-- `is_scipy_sparse(x)`: the class's module path starts with `scipy.sparse`
and the object has a `tocoo` attribute (generator_data_adapter.py lines
99-102). -/
def is_scipy_sparse (x : Field) : Bool :=
  strStartsWith x.moduleName "scipy.sparse" && x.hasTocoo

/-- Modelled from the spec: `backend.standardize_dtype` lives in the Keras
backend package, which is not under src/.  The spec says only that it
standardizes the element dtype into a canonical cross-backend name; we model it
as a canonicalization of a few aliases, identity otherwise. -/
def standardize_dtype (dtype : String) : String :=
  if dtype = "double" then "float64"
  else if dtype = "half" then "float16"
  else if dtype = "long" then "int64"
  else dtype

/-- `scipy_sparse_to_tf_sparse(x)` (lines 105-114): take `x.tocoo()`, build the
2-column index array `np.concatenate((expand_dims(row, 1), expand_dims(col, 1)),
axis=1)` — i.e. the row/col pairs in order — and assemble
`tf.SparseTensor(indices, data, shape)`.  `none` models the `AttributeError`
that `x.tocoo()` would raise on an object without `tocoo`. -/
def scipy_sparse_to_tf_sparse (x : Field) : Option Field :=
  match x.tocoo with
  | none => none
  | some coo => some (.sparseTensor coo.shape x.dtype (coo.row.zip coo.col) coo.data)

/-- `convert_to_tf(batch)` (lines 63-66, applied per leaf): scipy sparse leaves
are converted to `tf.SparseTensor`, anything else passes through unchanged.
(The fallback branch is unreachable: `is_scipy_sparse` implies `tocoo`
succeeds.) -/
def convert_to_tf (batch : Field) : Field :=
  if is_scipy_sparse batch then
    match scipy_sparse_to_tf_sparse batch with
    | some b => b
    | none => batch
  else batch

/-- A nested tuple structure with array-like leaves, as traversed by
`tree.map_structure`. -/
inductive Tree (α : Type) where
  | leaf (x : α)
  | node (children : List (Tree α))

/-- A batch yielded by the generator. -/
abbrev Batch := Tree Field

/-- `isinstance(first_batch, tuple)`: true exactly for a top-level tuple. -/
def Tree.isTuple : Tree α → Bool
  | .node _ => true
  | .leaf _ => false

mutual

/-- `tree.map_structure(f, t)` for a pure `f`: apply `f` to every leaf,
preserving the structure. -/
def Tree.map (f : α → β) : Tree α → Tree β
  | .leaf x => .leaf (f x)
  | .node cs => .node (Tree.mapChildren f cs)

/-- Helper of `Tree.map` on the children list. -/
def Tree.mapChildren (f : α → β) : List (Tree α) → List (Tree β)
  | [] => []
  | t :: ts => Tree.map f t :: Tree.mapChildren f ts

end

mutual

/-- `tree.map_structure(f, t)` for an `f` that can raise: leaves are visited
left to right and the first exception propagates. -/
def Tree.mapM (f : α → Except KerasError β) : Tree α → Except KerasError (Tree β)
  | .leaf x =>
    match f x with
    | .error e => .error e
    | .ok y => .ok (.leaf y)
  | .node cs =>
    match Tree.mapMChildren f cs with
    | .error e => .error e
    | .ok ys => .ok (.node ys)

/-- Helper of `Tree.mapM` on the children list. -/
def Tree.mapMChildren (f : α → Except KerasError β) :
    List (Tree α) → Except KerasError (List (Tree β))
  | [] => .ok []
  | t :: ts =>
    match Tree.mapM f t with
    | .error e => .error e
    | .ok y =>
      match Tree.mapMChildren f ts with
      | .error e => .error e
      | .ok ys => .ok (y :: ys)

end

mutual

/-- Does some leaf of the batch have rank 0? -/
def Tree.hasRank0 : Tree Field → Bool
  | .leaf x => x.shape.length == 0
  | .node cs => Tree.hasRank0Children cs

/-- Helper of `Tree.hasRank0` on the children list. -/
def Tree.hasRank0Children : List (Tree Field) → Bool
  | [] => false
  | t :: ts => Tree.hasRank0 t || Tree.hasRank0Children ts

end

/-- A printable rendering of a leaf, standing in for Python's `repr`. -/
def Field.pyRepr : Field → String
  | .ndarray s d _ => "array(shape " ++ toString s ++ ", dtype " ++ d ++ ")"
  | .raggedTensor s d _ => "tf.RaggedTensor(shape " ++ toString s ++ ", dtype " ++ d ++ ")"
  | .sparseTensor s d _ _ => "tf.SparseTensor(shape " ++ toString s ++ ", dtype " ++ d ++ ")"
  | .scipySparseMatrix n m d _ _ _ =>
      "scipy.sparse matrix(shape [" ++ toString n ++ ", " ++ toString m ++ "], dtype " ++ d ++ ")"

mutual

/-- A printable rendering of a batch, standing in for Python's `repr` of a
(nested) tuple. -/
def Tree.pyRepr : Tree Field → String
  | .leaf x => x.pyRepr
  | .node cs => "(" ++ String.intercalate ", " (Tree.pyReprChildren cs) ++ ")"

/-- Helper of `Tree.pyRepr` on the children list. -/
def Tree.pyReprChildren : List (Tree Field) → List String
  | [] => []
  | t :: ts => Tree.pyRepr t :: Tree.pyReprChildren ts

end

/-- The TensorFlow type/shape descriptors produced by signature inference:
`tf.TensorSpec`, `tf.RaggedTensorSpec`, `tf.SparseTensorSpec`.  A `none`
dimension is TensorFlow's `None` (unknown size). -/
inductive TFSpec where
  | tensorSpec (shape : List (Option Nat)) (dtype : String)
  | raggedTensorSpec (shape : List (Option Nat)) (dtype : String)
  | sparseTensorSpec (shape : List (Option Nat)) (dtype : String)
deriving DecidableEq, Repr

/-- The shape carried by a descriptor. -/
def TFSpec.shape : TFSpec → List (Option Nat)
  | .tensorSpec s _ => s
  | .raggedTensorSpec s _ => s
  | .sparseTensorSpec s _ => s

/-- The dtype carried by a descriptor. -/
def TFSpec.dtype : TFSpec → String
  | .tensorSpec _ d => d
  | .raggedTensorSpec _ d => d
  | .sparseTensorSpec _ d => d

/-- Is the descriptor a `tf.RaggedTensorSpec`? -/
def TFSpec.isRaggedSpec : TFSpec → Bool
  | .raggedTensorSpec _ _ => true
  | _ => false

/-- Is the descriptor a `tf.SparseTensorSpec`? -/
def TFSpec.isSparseSpec : TFSpec → Bool
  | .sparseTensorSpec _ _ => true
  | _ => false

/-- Is the descriptor a plain `tf.TensorSpec`? -/
def TFSpec.isDenseSpec : TFSpec → Bool
  | .tensorSpec _ _ => true
  | _ => false

/-- The `ValueError` message of `__init__` (lines 20-26) for a non-tuple first
batch: it enumerates the three accepted tuple shapes and echoes the received
value. -/
def tupleErrMsg (first_batch : Batch) : String :=
  "When passing a Python generator to a Keras model, " ++
  "the generator must return a tuple, either " ++
  "(input,) or (inputs, targets) or " ++
  "(inputs, targets, sample_weights). " ++
  "Received: " ++ first_batch.pyRepr

/-- The `ValueError` message of `get_tensor_spec` (lines 33-39) for a rank-0
field: it echoes the field and states its rank. -/
def rankErrMsg (x : Field) : String :=
  "When passing a Python generator to a Keras model, " ++
  "the arrays returned by the generator " ++
  "must be at least rank 1. Received: " ++
  x.pyRepr ++ " of rank " ++ toString x.shape.length

/-- `get_tensor_spec(x)` (lines 31-48): reject rank-0 fields, replace the
leading (batch) dimension of the shape with `None`, standardize the dtype, and
pick the descriptor kind from the runtime category of `x`. -/
def get_tensor_spec (x : Field) : Except KerasError TFSpec :=
  let shape := x.shape
  if shape.length < 1 then
    .error (.valueError (rankErrMsg x))
  else
    let shape2 : List (Option Nat) := none :: (shape.drop 1).map some
    let dtype := standardize_dtype x.dtype
    if x.isRaggedTensor then .ok (.raggedTensorSpec shape2 dtype)
    else if x.isSparseTensor || is_scipy_sparse x then .ok (.sparseTensorSpec shape2 dtype)
    else .ok (.tensorSpec shape2 dtype)

/-- A Python generator that still has `items` to yield; `pulled` counts how
many `next` calls have returned an element, making side effects on the
caller-supplied object observable. -/
structure PyGen where
  items : List Batch
  pulled : Nat

/-- `next(generator)`: yield the next element (advancing the generator) or
raise `StopIteration`. -/
def PyGen.next (g : PyGen) : Except KerasError (Batch × PyGen) :=
  match g.items with
  | [] => .error .stopIteration
  | b :: rest => .ok (b, ⟨rest, g.pulled + 1⟩)

/-- `itertools.chain([element], generator)`: the already-pulled elements in
`front`, then the rest of the underlying generator. -/
structure ChainGen where
  front : List Batch
  source : PyGen

/-- Fully draining a chained generator yields the front elements followed by
the source's remaining elements. -/
def ChainGen.toList (g : ChainGen) : List Batch :=
  g.front ++ g.source.items

/-- `peek_and_restore(generator)` (lines 94-96): pull one element with `next`,
then return it together with `itertools.chain([element], generator)`.  The
second component of the result is the state of the original generator after the
call (it has been advanced by exactly the one `next`). -/
def peek_and_restore (generator : PyGen) :
    Except KerasError (Batch × ChainGen) × PyGen :=
  match generator.next with
  | .error e => (.error e, generator)
  | .ok (element, generator2) => (.ok (element, ⟨[element], generator2⟩), generator2)

/-- The state of a constructed `GeneratorDataAdapter`. -/
structure GeneratorDataAdapter where
  generator : ChainGen
  first_batch : Batch
  output_signature : Option (Tree TFSpec)

/-- `GeneratorDataAdapter.__init__(generator)` (lines 14-26): peek and restore,
store the owned generator, the first batch and a `None` signature cache, then
raise `ValueError` if the first batch is not a tuple.  The result pairs the
constructed adapter (or the exception) with the state of the caller-supplied
generator after construction. -/
def GeneratorDataAdapter.init (generator : PyGen) :
    Except KerasError GeneratorDataAdapter × PyGen :=
  match peek_and_restore generator with
  | (.error e, gafter) => (.error e, gafter)
  | (.ok (first_batch, owned), gafter) =>
    if ¬ first_batch.isTuple then
      (.error (.valueError (tupleErrMsg first_batch)), gafter)
    else
      (.ok ⟨owned, first_batch, none⟩, gafter)

/-- `GeneratorDataAdapter._set_tf_output_signature` (lines 28-52): map
`get_tensor_spec` over the stored first batch and assign the result to the
signature cache.  If the traversal raises, the assignment never happens and the
adapter is returned unchanged. -/
def GeneratorDataAdapter._set_tf_output_signature (a : GeneratorDataAdapter) :
    Except KerasError Unit × GeneratorDataAdapter :=
  match Tree.mapM get_tensor_spec a.first_batch with
  | .error e => (.error e, a)
  | .ok sig => (.ok (), { a with output_signature := some sig })

/-- Modelled from the spec: `data_adapter_utils.get_numpy_iterator` is not
under src/.  Per the spec, `iterate_plain` returns a lazy single-pass sequence
over the owned generator's batches with per-batch array conversion that
preserves order, length, shapes and values and does no inference, prefetch or
buffering; on this value model the conversion is the identity.
`GeneratorDataAdapter.get_numpy_iterator` (lines 54-55) delegates to it on
`self.generator`. -/
def GeneratorDataAdapter.get_numpy_iterator (a : GeneratorDataAdapter) : List Batch :=
  a.generator.toList

/-- The `tf.data.Dataset` built by `get_tf_dataset`: its (lazily produced)
elements, the output signature it was constructed with, and the attached
`AUTOTUNE` prefetch. -/
structure TfDataset where
  elements : List Batch
  output_signature : Option (Tree TFSpec)
  prefetched : Bool

/-- `GeneratorDataAdapter.get_tf_dataset` (lines 60-80): compute the output
signature if it has not been computed yet, then build a dataset from the owned
generator with `convert_to_tf` mapped over every batch, annotated with the
cached signature, with prefetching attached. -/
def GeneratorDataAdapter.get_tf_dataset (a : GeneratorDataAdapter) :
    Except KerasError TfDataset × GeneratorDataAdapter :=
  match (if a.output_signature.isNone then a._set_tf_output_signature else (.ok (), a)) with
  | (.error e, a2) => (.error e, a2)
  | (.ok _, a2) =>
    (.ok { elements := a2.generator.toList.map (Tree.map convert_to_tf),
           output_signature := a2.output_signature,
           prefetched := true }, a2)

/-- `GeneratorDataAdapter.num_batches` (lines 85-87): always `None`. -/
def GeneratorDataAdapter.num_batches (_ : GeneratorDataAdapter) : Option Nat :=
  none

/-- `GeneratorDataAdapter.batch_size` (lines 89-91): always `None`. -/
def GeneratorDataAdapter.batch_size (_ : GeneratorDataAdapter) : Option Nat :=
  none

/-- A batch that is a tuple of length 1-3 whose elements are all fields of
rank at least 1 — the "valid tuple batch" of the spec's testable property. -/
def validTupleBatch (b : Batch) : Bool :=
  match b with
  | .leaf _ => false
  | .node elems =>
    decide (1 ≤ elems.length) && decide (elems.length ≤ 3) &&
      elems.all fun t =>
        match t with
        | .leaf x => decide (1 ≤ x.shape.length)
        | .node _ => false

/-- A batch whose top level is a tuple of length 1-3 (the shape named by the
claim about construction-time validation). -/
def isTupleOfLen1to3 (b : Batch) : Bool :=
  match b with
  | .leaf _ => false
  | .node elems => decide (1 ≤ elems.length) && decide (elems.length ≤ 3)

/-- The first batch of the spec's concrete scenario: `([[1, 2]], [0])`, a pair
of a (1, 2)-shaped array and a (1,)-shaped array. -/
def exInputs : Field := .ndarray [1, 2] "int64" [1, 2]

/-- The second component `[0]` of the spec's first example batch. -/
def exTargets : Field := .ndarray [1] "int64" [0]

/-- The spec's first example batch `([[1, 2]], [0])`. -/
def exBatch1 : Batch := .node [.leaf exInputs, .leaf exTargets]

/-- The spec's second example batch `([[3, 4]], [1])`. -/
def exBatch2 : Batch :=
  .node [.leaf (.ndarray [1, 2] "int64" [3, 4]), .leaf (.ndarray [1] "int64" [1])]

/-- The inferred output signature of the example batches: shapes `(None, 2)`
and `(None,)`. -/
def exSignature : Tree TFSpec :=
  .node [.leaf (.tensorSpec [none, some 2] "int64"), .leaf (.tensorSpec [none] "int64")]

/-- A 4-tuple batch: not one of the three shapes the error message enumerates. -/
def fourTupleBatch : Batch :=
  .node [.leaf exInputs, .leaf exTargets, .leaf exTargets, .leaf exTargets]

/-- A rank-0 (scalar) field. -/
def exScalar : Field := .ndarray [] "float32" [5]

/-- A 1-tuple batch containing a rank-0 field. -/
def exScalarBatch : Batch := .node [.leaf exScalar]

/-- The adapter state produced by constructing on the scalar-field batch. -/
def exScalarAdapter : GeneratorDataAdapter :=
  ⟨⟨[exScalarBatch], ⟨[], 1⟩⟩, exScalarBatch, none⟩

/-- A concrete scipy sparse matrix: shape (2, 3), nonzeros 5 at (0, 2) and 7 at
(1, 0). -/
def exScipy : Field := .scipySparseMatrix 2 3 "float32" [0, 1] [2, 0] [5, 7]

/-- The adapter state produced by constructing on the two example batches. -/
def exAdapter : GeneratorDataAdapter :=
  ⟨⟨[exBatch1], ⟨[exBatch2], 1⟩⟩, exBatch1, none⟩

/-- `exAdapter` after its output signature has been computed and cached. -/
def exAdapterCached : GeneratorDataAdapter :=
  { exAdapter with output_signature := some exSignature }

/-- The dataset `get_tf_dataset` builds on `exAdapter`. -/
def exDataset : TfDataset :=
  { elements := [exBatch1, exBatch2],
    output_signature := some exSignature,
    prefetched := true }

/-- A valid tuple batch is in particular a tuple. -/
theorem isTuple_of_validTupleBatch {b : Batch} (h : validTupleBatch b = true) :
    b.isTuple = true := by
  cases b with
  | leaf x => simp [validTupleBatch] at h
  | node cs => rfl

mutual

/-- Traversal of a batch by `get_tensor_spec`: it raises the rank-0
`ValueError` of some rank-0 leaf exactly when the batch has a rank-0 leaf, and
succeeds otherwise. -/
theorem mapM_get_tensor_spec_rank0 (t : Tree Field) :
    (Tree.hasRank0 t = true →
      ∃ x : Field, x.shape.length = 0 ∧
        Tree.mapM get_tensor_spec t = .error (.valueError (rankErrMsg x))) ∧
    (Tree.hasRank0 t = false →
      ∃ u : Tree TFSpec, Tree.mapM get_tensor_spec t = .ok u) := by
  cases t with
  | leaf x =>
    constructor
    · intro h
      have hx : x.shape.length = 0 := by
        simpa [Tree.hasRank0] using h
      refine ⟨x, hx, ?_⟩
      simp [Tree.mapM, get_tensor_spec, hx]
    · intro h
      have hx : x.shape.length ≠ 0 := by
        simpa [Tree.hasRank0] using h
      have hx1 : ¬ x.shape.length < 1 := by omega
      cases x with
      | ndarray s d data =>
        simp only [Field.shape] at hx1
        have hne : s ≠ [] := by intro hs; rw [hs] at hx1; exact hx1 (by simp)
        refine ⟨.leaf (.tensorSpec (none :: (s.drop 1).map some) (standardize_dtype d)), ?_⟩
        simp [Tree.mapM, get_tensor_spec, Field.shape, Field.dtype, Field.isRaggedTensor,
              Field.isSparseTensor, is_scipy_sparse, Field.hasTocoo, hne, if_neg hx1]
      | raggedTensor s d data =>
        simp only [Field.shape] at hx1
        have hne : s ≠ [] := by intro hs; rw [hs] at hx1; exact hx1 (by simp)
        refine ⟨.leaf (.raggedTensorSpec (none :: (s.drop 1).map some) (standardize_dtype d)), ?_⟩
        simp [Tree.mapM, get_tensor_spec, Field.shape, Field.dtype, Field.isRaggedTensor,
              hne, if_neg hx1]
      | sparseTensor s d idx vals =>
        simp only [Field.shape] at hx1
        have hne : s ≠ [] := by intro hs; rw [hs] at hx1; exact hx1 (by simp)
        refine ⟨.leaf (.sparseTensorSpec (none :: (s.drop 1).map some) (standardize_dtype d)), ?_⟩
        simp [Tree.mapM, get_tensor_spec, Field.shape, Field.dtype, Field.isRaggedTensor,
              Field.isSparseTensor, hne, if_neg hx1]
      | scipySparseMatrix n m d r c v =>
        refine ⟨.leaf (.sparseTensorSpec [none, some m] (standardize_dtype d)), ?_⟩
        simp [Tree.mapM, get_tensor_spec, Field.shape, Field.dtype, Field.isRaggedTensor,
              Field.isSparseTensor, is_scipy_sparse, Field.hasTocoo, Field.moduleName,
              strStartsWith]
  | node cs =>
    have ih := mapMChildren_get_tensor_spec_rank0 cs
    constructor
    · intro h
      obtain ⟨x, hx, herr⟩ := ih.1 (by simpa [Tree.hasRank0] using h)
      exact ⟨x, hx, by simp [Tree.mapM, herr]⟩
    · intro h
      obtain ⟨us, hok⟩ := ih.2 (by simpa [Tree.hasRank0] using h)
      exact ⟨.node us, by simp [Tree.mapM, hok]⟩

/-- Children-list version of `mapM_get_tensor_spec_rank0`. -/
theorem mapMChildren_get_tensor_spec_rank0 (ts : List (Tree Field)) :
    (Tree.hasRank0Children ts = true →
      ∃ x : Field, x.shape.length = 0 ∧
        Tree.mapMChildren get_tensor_spec ts = .error (.valueError (rankErrMsg x))) ∧
    (Tree.hasRank0Children ts = false →
      ∃ us : List (Tree TFSpec), Tree.mapMChildren get_tensor_spec ts = .ok us) := by
  cases ts with
  | nil =>
    constructor
    · intro h
      simp [Tree.hasRank0Children] at h
    · intro _
      exact ⟨[], rfl⟩
  | cons t ts =>
    have iht := mapM_get_tensor_spec_rank0 t
    have ihts := mapMChildren_get_tensor_spec_rank0 ts
    constructor
    · intro h
      rcases Bool.or_eq_true_iff.mp (by simpa [Tree.hasRank0Children] using h) with h1 | h2
      · obtain ⟨x, hx, herr⟩ := iht.1 h1
        exact ⟨x, hx, by simp [Tree.mapMChildren, herr]⟩
      · cases hht : Tree.hasRank0 t with
        | true =>
          obtain ⟨x, hx, herr⟩ := iht.1 hht
          exact ⟨x, hx, by simp [Tree.mapMChildren, herr]⟩
        | false =>
          obtain ⟨u, hok⟩ := iht.2 hht
          obtain ⟨x, hx, herr⟩ := ihts.1 h2
          exact ⟨x, hx, by simp [Tree.mapMChildren, hok, herr]⟩
    · intro h
      have hpair := by simpa [Tree.hasRank0Children] using h
      obtain ⟨u, hok⟩ := iht.2 hpair.1
      obtain ⟨us, hoks⟩ := ihts.2 hpair.2
      exact ⟨u :: us, by simp [Tree.mapMChildren, hok, hoks]⟩

end

/-- Claim C1: for every generator whose first yielded element is a valid tuple
batch, construction succeeds and consumes each original element exactly once:
iterating the adapter's plain sequence yields exactly the original sequence of
batches, in original order, with the same length and values — the peeked first
element is neither lost nor duplicated. -/
theorem C1_plain_iteration_preserves_sequence (g : PyGen) (b : Batch)
    (rest : List Batch) (hitems : g.items = b :: rest)
    (hvalid : validTupleBatch b = true) :
    ∃ a : GeneratorDataAdapter,
      (GeneratorDataAdapter.init g).1 = .ok a ∧
      a.get_numpy_iterator = g.items := by
  obtain ⟨items, pulled⟩ := g
  simp only at hitems
  subst hitems
  have ht : b.isTuple = true := isTuple_of_validTupleBatch hvalid
  refine ⟨⟨⟨[b], ⟨rest, pulled + 1⟩⟩, b, none⟩, ?_, ?_⟩
  · simp [GeneratorDataAdapter.init, peek_and_restore, PyGen.next, ht]
  · simp [GeneratorDataAdapter.get_numpy_iterator, ChainGen.toList]

/-- Witness for C1 at the spec's concrete two-batch scenario. -/
theorem C1_plain_iteration_preserves_sequence_witness :
    validTupleBatch exBatch1 = true ∧
    (∃ a : GeneratorDataAdapter,
      (GeneratorDataAdapter.init ⟨[exBatch1, exBatch2], 0⟩).1 = .ok a ∧
      a.get_numpy_iterator = [exBatch1, exBatch2]) :=
  ⟨rfl, C1_plain_iteration_preserves_sequence ⟨[exBatch1, exBatch2], 0⟩ exBatch1
    [exBatch2] rfl rfl⟩

/-- Claim C2 as stated is false at a concrete input: a 4-tuple first batch is
not a tuple of length 1-3, yet construction succeeds and raises no validation
error — the length of the tuple is never checked. -/
theorem C2_counterexample_four_tuple_accepted :
    isTupleOfLen1to3 fourTupleBatch = false ∧
    (GeneratorDataAdapter.init ⟨[fourTupleBatch], 0⟩).1 =
      .ok ⟨⟨[fourTupleBatch], ⟨[], 1⟩⟩, fourTupleBatch, none⟩ :=
  ⟨rfl, rfl⟩

/-- Claim C2 (amended): construction fails with the validation error if and
only if the peeked first element is not a tuple — a tuple of any length,
including length 0 or more than 3, is accepted — and the error message
enumerates the three accepted tuple shapes and echoes the received value. -/
theorem C2_tuple_check_iff_not_tuple (g : PyGen) (b : Batch) (rest : List Batch)
    (hitems : g.items = b :: rest) :
    (b.isTuple = false →
      (GeneratorDataAdapter.init g).1 = .error (.valueError (tupleErrMsg b))) ∧
    (b.isTuple = true →
      ∃ a : GeneratorDataAdapter,
        (GeneratorDataAdapter.init g).1 = .ok a ∧ a.first_batch = b) ∧
    tupleErrMsg b =
      "When passing a Python generator to a Keras model, " ++
      "the generator must return a tuple, either " ++
      "(input,) or (inputs, targets) or " ++
      "(inputs, targets, sample_weights). " ++
      "Received: " ++ b.pyRepr := by
  obtain ⟨items, pulled⟩ := g
  simp only at hitems
  subst hitems
  refine ⟨?_, ?_, rfl⟩
  · intro hb
    simp [GeneratorDataAdapter.init, peek_and_restore, PyGen.next, hb]
  · intro hb
    exact ⟨⟨⟨[b], ⟨rest, pulled + 1⟩⟩, b, none⟩,
      by simp [GeneratorDataAdapter.init, peek_and_restore, PyGen.next, hb], rfl⟩

/-- Witness for the amended C2 at a bare-array (non-tuple) first element. -/
theorem C2_tuple_check_iff_not_tuple_witness :
    (Tree.leaf exInputs : Batch).isTuple = false ∧
    (GeneratorDataAdapter.init ⟨[Tree.leaf exInputs], 0⟩).1 =
      .error (.valueError (tupleErrMsg (Tree.leaf exInputs))) :=
  ⟨rfl,
    (C2_tuple_check_iff_not_tuple ⟨[Tree.leaf exInputs], 0⟩ (Tree.leaf exInputs)
      [] rfl).1 rfl⟩

/-- Claim C3: for every field of rank at least 1 the inferred descriptor's
shape is the field's shape with the leading (batch) dimension replaced by
unknown, its dtype is the standardized dtype, and its kind is ragged for a
ragged tensor, sparse for a native sparse tensor or scipy-sparse-convention
object, dense otherwise; moreover on the example first batch the inferred
shapes are (None, 2) and (None,). -/
theorem C3_signature_inference (x : Field) (h : 1 ≤ x.shape.length) :
    (∃ s : TFSpec,
      get_tensor_spec x = .ok s ∧
      s.shape = none :: (x.shape.drop 1).map some ∧
      s.dtype = standardize_dtype x.dtype ∧
      s.isRaggedSpec = x.isRaggedTensor ∧
      s.isSparseSpec = (x.isSparseTensor || is_scipy_sparse x) ∧
      s.isDenseSpec = (!x.isRaggedTensor && !(x.isSparseTensor || is_scipy_sparse x))) ∧
    Tree.mapM get_tensor_spec exBatch1 = .ok exSignature := by
  have hx1 : ¬ x.shape.length < 1 := by omega
  refine ⟨?_, rfl⟩
  cases x with
  | ndarray s d data =>
    simp only [Field.shape] at hx1
    have hne : s ≠ [] := by intro hs; rw [hs] at hx1; exact hx1 (by simp)
    refine ⟨.tensorSpec (none :: (s.drop 1).map some) (standardize_dtype d),
      ?_, rfl, rfl, rfl, rfl, rfl⟩
    simp [get_tensor_spec, Field.shape, Field.dtype, Field.isRaggedTensor,
          Field.isSparseTensor, is_scipy_sparse, Field.hasTocoo, hne, if_neg hx1]
  | raggedTensor s d data =>
    simp only [Field.shape] at hx1
    have hne : s ≠ [] := by intro hs; rw [hs] at hx1; exact hx1 (by simp)
    refine ⟨.raggedTensorSpec (none :: (s.drop 1).map some) (standardize_dtype d),
      ?_, rfl, rfl, rfl, rfl, rfl⟩
    simp [get_tensor_spec, Field.shape, Field.dtype, Field.isRaggedTensor,
          hne, if_neg hx1]
  | sparseTensor s d idx vals =>
    simp only [Field.shape] at hx1
    have hne : s ≠ [] := by intro hs; rw [hs] at hx1; exact hx1 (by simp)
    refine ⟨.sparseTensorSpec (none :: (s.drop 1).map some) (standardize_dtype d),
      ?_, rfl, rfl, rfl, rfl, rfl⟩
    simp [get_tensor_spec, Field.shape, Field.dtype, Field.isRaggedTensor,
          Field.isSparseTensor, hne, if_neg hx1]
  | scipySparseMatrix n m d r c v =>
    refine ⟨.sparseTensorSpec [none, some m] (standardize_dtype d),
      ?_, rfl, rfl, rfl, rfl, rfl⟩
    simp [get_tensor_spec, Field.shape, Field.dtype, Field.isRaggedTensor,
          Field.isSparseTensor, is_scipy_sparse, Field.hasTocoo, Field.moduleName,
          strStartsWith]

/-- Witness for C3 at the example (1, 2)-shaped dense field. -/
theorem C3_signature_inference_witness :
    1 ≤ exInputs.shape.length ∧
    ((∃ s : TFSpec,
      get_tensor_spec exInputs = .ok s ∧
      s.shape = none :: (exInputs.shape.drop 1).map some ∧
      s.dtype = standardize_dtype exInputs.dtype ∧
      s.isRaggedSpec = exInputs.isRaggedTensor ∧
      s.isSparseSpec = (exInputs.isSparseTensor || is_scipy_sparse exInputs) ∧
      s.isDenseSpec =
        (!exInputs.isRaggedTensor &&
          !(exInputs.isSparseTensor || is_scipy_sparse exInputs))) ∧
    Tree.mapM get_tensor_spec exBatch1 = .ok exSignature) :=
  ⟨by decide, C3_signature_inference exInputs (by decide)⟩

/-- Anatomy of a successful `get_tf_dataset` call: the adapter's generator and
first batch are untouched, the returned adapter's cache equals the dataset's
signature, which is set, the dataset's elements are the per-batch
`convert_to_tf` image of the owned generator, and prefetch is attached. -/
theorem get_tf_dataset_ok (a a2 : GeneratorDataAdapter) (ds : TfDataset)
    (h : a.get_tf_dataset = (.ok ds, a2)) :
    a2.generator = a.generator ∧ a2.first_batch = a.first_batch ∧
    a2.output_signature = ds.output_signature ∧
    ds.output_signature.isSome = true ∧
    ds.elements = a.generator.toList.map (Tree.map convert_to_tf) ∧
    ds.prefetched = true := by
  cases hsig : a.output_signature with
  | some sig =>
    have hres : a.get_tf_dataset =
        (.ok { elements := a.generator.toList.map (Tree.map convert_to_tf),
               output_signature := some sig, prefetched := true }, a) := by
      simp [GeneratorDataAdapter.get_tf_dataset, hsig]
    rw [hres] at h
    simp only [Prod.mk.injEq, Except.ok.injEq] at h
    obtain ⟨hds, ha⟩ := h
    subst hds
    subst ha
    exact ⟨rfl, rfl, hsig, rfl, rfl, rfl⟩
  | none =>
    cases hm : Tree.mapM get_tensor_spec a.first_batch with
    | error e =>
      have hres : a.get_tf_dataset = (.error e, a) := by
        simp [GeneratorDataAdapter.get_tf_dataset,
              GeneratorDataAdapter._set_tf_output_signature, hsig, hm]
      rw [hres] at h
      exact absurd h (by simp)
    | ok sig =>
      have hres : a.get_tf_dataset =
          (.ok { elements := a.generator.toList.map (Tree.map convert_to_tf),
                 output_signature := some sig, prefetched := true },
           { a with output_signature := some sig }) := by
        simp [GeneratorDataAdapter.get_tf_dataset,
              GeneratorDataAdapter._set_tf_output_signature, hsig, hm]
      rw [hres] at h
      simp only [Prod.mk.injEq, Except.ok.injEq] at h
      obtain ⟨hds, ha⟩ := h
      subst hds
      subst ha
      exact ⟨rfl, rfl, rfl, rfl, rfl, rfl⟩

/-- Claim C4: when the peeked first batch is a tuple containing a rank-0
field, construction succeeds, `get_tf_dataset` fails with the rank-0
validation error — whose message states the field's rank, here 0 — while
`get_numpy_iterator` on the same adapter still yields the full original
sequence: the rank check runs only at signature computation on the
native-dataset path. -/
theorem C4_rank0_fails_only_on_tf_path (g : PyGen) (b : Batch) (rest : List Batch)
    (hitems : g.items = b :: rest) (htuple : b.isTuple = true)
    (hrank0 : b.hasRank0 = true) :
    ∃ a : GeneratorDataAdapter,
      (GeneratorDataAdapter.init g).1 = .ok a ∧
      (∃ x : Field, x.shape.length = 0 ∧
        a.get_tf_dataset.1 = .error (.valueError (rankErrMsg x))) ∧
      a.get_numpy_iterator = g.items := by
  obtain ⟨items, pulled⟩ := g
  simp only at hitems
  subst hitems
  refine ⟨⟨⟨[b], ⟨rest, pulled + 1⟩⟩, b, none⟩, ?_, ?_, ?_⟩
  · simp [GeneratorDataAdapter.init, peek_and_restore, PyGen.next, htuple]
  · obtain ⟨x, hx, herr⟩ := (mapM_get_tensor_spec_rank0 b).1 hrank0
    refine ⟨x, hx, ?_⟩
    simp [GeneratorDataAdapter.get_tf_dataset,
          GeneratorDataAdapter._set_tf_output_signature, herr]
  · simp [GeneratorDataAdapter.get_numpy_iterator, ChainGen.toList]

/-- Witness for C4 at a 1-tuple batch holding a scalar field. -/
theorem C4_rank0_fails_only_on_tf_path_witness :
    (exScalarBatch.isTuple = true ∧ exScalarBatch.hasRank0 = true) ∧
    (∃ a : GeneratorDataAdapter,
      (GeneratorDataAdapter.init ⟨[exScalarBatch], 0⟩).1 = .ok a ∧
      (∃ x : Field, x.shape.length = 0 ∧
        a.get_tf_dataset.1 = .error (.valueError (rankErrMsg x))) ∧
      a.get_numpy_iterator = [exScalarBatch]) :=
  ⟨⟨rfl, rfl⟩,
    C4_rank0_fails_only_on_tf_path ⟨[exScalarBatch], 0⟩ exScalarBatch [] rfl rfl rfl⟩

/-- Claim C5: once `get_tf_dataset` has succeeded, the output signature is
cached on the returned adapter and equals the dataset's; calling
`get_tf_dataset` again returns the very same dataset and adapter — the cached
signature is reused unchanged, never invalidated or recomputed. -/
theorem C5_signature_cached_and_reused (a a2 : GeneratorDataAdapter)
    (ds : TfDataset) (h : a.get_tf_dataset = (.ok ds, a2)) :
    a2.output_signature = ds.output_signature ∧
    a2.get_tf_dataset = (.ok ds, a2) := by
  obtain ⟨hgen, hfb, hsig, hsome, helems, hpre⟩ := get_tf_dataset_ok a a2 ds h
  refine ⟨hsig, ?_⟩
  obtain ⟨el, osig, pre⟩ := ds
  simp only at hsig helems hsome hpre
  subst helems
  subst hpre
  cases osig with
  | none => simp at hsome
  | some sig =>
    simp [GeneratorDataAdapter.get_tf_dataset, hsig, hgen]

/-- Witness for C5 at the adapter on the spec's two example batches. -/
theorem C5_signature_cached_and_reused_witness :
    exAdapter.get_tf_dataset = (.ok exDataset, exAdapterCached) ∧
    (exAdapterCached.output_signature = exDataset.output_signature ∧
     exAdapterCached.get_tf_dataset = (.ok exDataset, exAdapterCached)) :=
  ⟨rfl, C5_signature_cached_and_reused exAdapter exAdapterCached exDataset rfl⟩

/-- Claim C6: in the lazy-dataset path every scipy-sparse-convention field is
converted into a sparse tensor whose 2-column row/col index list, values and
shape are exactly the matrix's COO coordinate form; every other field passes
through unchanged; and a built dataset's elements are exactly the per-batch
image of this conversion over the owned generator. -/
theorem C6_sparse_conversion_coo (x : Field) :
    (is_scipy_sparse x = true →
      ∃ coo : CooMatrix, x.tocoo = some coo ∧
        convert_to_tf x =
          .sparseTensor coo.shape x.dtype (coo.row.zip coo.col) coo.data) ∧
    (is_scipy_sparse x = false → convert_to_tf x = x) ∧
    (∀ (a a2 : GeneratorDataAdapter) (ds : TfDataset),
      a.get_tf_dataset = (.ok ds, a2) →
      ds.elements = a.generator.toList.map (Tree.map convert_to_tf)) := by
  refine ⟨?_, ?_, ?_⟩
  · intro hx
    cases x with
    | ndarray s d data => simp [is_scipy_sparse, Field.hasTocoo] at hx
    | raggedTensor s d data => simp [is_scipy_sparse, Field.hasTocoo] at hx
    | sparseTensor s d idx vals => simp [is_scipy_sparse, Field.hasTocoo] at hx
    | scipySparseMatrix n m d r c v =>
      refine ⟨⟨r, c, v, [n, m]⟩, rfl, ?_⟩
      simp [convert_to_tf, hx, scipy_sparse_to_tf_sparse, Field.tocoo, Field.dtype]
  · intro hx
    simp [convert_to_tf, hx]
  · intro a a2 ds h
    exact (get_tf_dataset_ok a a2 ds h).2.2.2.2.1

/-- Witness for C6 at a concrete scipy sparse matrix and a concrete dense
array. -/
theorem C6_sparse_conversion_coo_witness :
    is_scipy_sparse exScipy = true ∧
    (∃ coo : CooMatrix, exScipy.tocoo = some coo ∧
      convert_to_tf exScipy =
        .sparseTensor coo.shape exScipy.dtype (coo.row.zip coo.col) coo.data) ∧
    is_scipy_sparse exInputs = false ∧
    convert_to_tf exInputs = exInputs :=
  ⟨rfl, (C6_sparse_conversion_coo exScipy).1 rfl, rfl,
    (C6_sparse_conversion_coo exInputs).2.1 rfl⟩

/-- Claim C7: construction pulls exactly one element from the caller-supplied
generator — and never more than one, whether validation succeeds or fails —
and fails with the validation error when that first element is not a tuple. -/
theorem C7_construction_advances_exactly_one (g : PyGen) (b : Batch)
    (rest : List Batch) (hitems : g.items = b :: rest) :
    (GeneratorDataAdapter.init g).2.pulled = g.pulled + 1 ∧
    (GeneratorDataAdapter.init g).2.items = rest ∧
    (b.isTuple = false →
      (GeneratorDataAdapter.init g).1 = .error (.valueError (tupleErrMsg b))) := by
  obtain ⟨items, pulled⟩ := g
  simp only at hitems
  subst hitems
  refine ⟨?_, ?_, ?_⟩
  · cases hb : b.isTuple <;>
      simp [GeneratorDataAdapter.init, peek_and_restore, PyGen.next, hb]
  · cases hb : b.isTuple <;>
      simp [GeneratorDataAdapter.init, peek_and_restore, PyGen.next, hb]
  · intro hb
    simp [GeneratorDataAdapter.init, peek_and_restore, PyGen.next, hb]

/-- Witness for C7 at a generator whose first element is a bare array. -/
theorem C7_construction_advances_exactly_one_witness :
    (GeneratorDataAdapter.init ⟨[Tree.leaf exInputs, exBatch2], 0⟩).2.pulled = 0 + 1 ∧
    (GeneratorDataAdapter.init ⟨[Tree.leaf exInputs, exBatch2], 0⟩).2.items = [exBatch2] ∧
    ((Tree.leaf exInputs : Batch).isTuple = false →
      (GeneratorDataAdapter.init ⟨[Tree.leaf exInputs, exBatch2], 0⟩).1 =
        .error (.valueError (tupleErrMsg (Tree.leaf exInputs)))) :=
  C7_construction_advances_exactly_one ⟨[Tree.leaf exInputs, exBatch2], 0⟩
    (Tree.leaf exInputs) [exBatch2] rfl

/-- Claim C8: `num_batches` and `batch_size` are the unknown sentinel (None)
for every adapter instance, regardless of its generator or consumption
state. -/
theorem C8_num_batches_batch_size_unknown (a : GeneratorDataAdapter) :
    a.num_batches = none ∧ a.batch_size = none :=
  ⟨rfl, rfl⟩

/-- Claim C9: for an empty generator, construction propagates the exhaustion
(`StopIteration`) unmodified — it is not the tuple-shape `ValueError` — no
adapter is produced, and the generator is not advanced. -/
theorem C9_empty_generator_stopiteration (g : PyGen) (h : g.items = []) :
    (GeneratorDataAdapter.init g).1 = .error .stopIteration ∧
    (∀ msg, (GeneratorDataAdapter.init g).1 ≠ .error (.valueError msg)) ∧
    (GeneratorDataAdapter.init g).2 = g := by
  obtain ⟨items, pulled⟩ := g
  simp only at h
  subst h
  refine ⟨rfl, ?_, rfl⟩
  intro msg hmsg
  simp [GeneratorDataAdapter.init, peek_and_restore, PyGen.next] at hmsg

/-- Witness for C9 at the empty generator. -/
theorem C9_empty_generator_stopiteration_witness :
    (GeneratorDataAdapter.init ⟨[], 0⟩).1 = .error .stopIteration ∧
    (∀ msg, (GeneratorDataAdapter.init ⟨[], 0⟩).1 ≠ .error (.valueError msg)) ∧
    (GeneratorDataAdapter.init ⟨[], 0⟩).2 = ⟨[], 0⟩ :=
  C9_empty_generator_stopiteration ⟨[], 0⟩ rfl

/-- Claim C10: if `get_tf_dataset` fails with the signature-computation
validation error, the adapter comes back with its signature cache still unset,
and calling `get_tf_dataset` on it again recomputes and raises the same error
again. -/
theorem C10_failed_signature_never_cached (a : GeneratorDataAdapter)
    (e : KerasError) (hnone : a.output_signature = none)
    (hfail : a.get_tf_dataset.1 = .error e) :
    a.get_tf_dataset.2 = a ∧
    a.get_tf_dataset.2.output_signature = none ∧
    a.get_tf_dataset.2.get_tf_dataset.1 = .error e := by
  cases hm : Tree.mapM get_tensor_spec a.first_batch with
  | ok sig =>
    have hres : a.get_tf_dataset.1 = .ok
        { elements := a.generator.toList.map (Tree.map convert_to_tf),
          output_signature := some sig, prefetched := true } := by
      simp [GeneratorDataAdapter.get_tf_dataset,
            GeneratorDataAdapter._set_tf_output_signature, hnone, hm]
    rw [hres] at hfail
    simp at hfail
  | error e2 =>
    have hres : a.get_tf_dataset = (.error e2, a) := by
      simp [GeneratorDataAdapter.get_tf_dataset,
            GeneratorDataAdapter._set_tf_output_signature, hnone, hm]
    have he : e2 = e := by
      rw [hres] at hfail
      exact Except.error.inj hfail
    subst he
    refine ⟨by simp [hres], by simp [hres, hnone], by simp [hres]⟩

/-- Witness for C10 at the adapter whose first batch holds a scalar field. -/
theorem C10_failed_signature_never_cached_witness :
    exScalarAdapter.output_signature = none ∧
    exScalarAdapter.get_tf_dataset.1 =
      .error (.valueError (rankErrMsg exScalar)) ∧
    (exScalarAdapter.get_tf_dataset.2 = exScalarAdapter ∧
     exScalarAdapter.get_tf_dataset.2.output_signature = none ∧
     exScalarAdapter.get_tf_dataset.2.get_tf_dataset.1 =
       .error (.valueError (rankErrMsg exScalar))) :=
  ⟨rfl, rfl,
    C10_failed_signature_never_cached exScalarAdapter
      (.valueError (rankErrMsg exScalar)) rfl rfl⟩

end Keras
